import Mathlib

/-!
Verification of the tailscaled daemon bootstrap layer
(`cmd/tailscaled/tailscaled.go`): transport-candidate selection
(`createEngine`), per-candidate engine composition (`tryEngine`),
netstack-mode resolution (`shouldWrapNetstack` and the `run` decision),
and the lifecycle result/exit-code logic (`run` / `main`).

The embedding is shallow: the external collaborators (`tstun.New`,
`router.New`, `dns.NewOSConfigurator`, `wgengine.NewUserspaceEngine`,
`ipnserver.Run`, `runWindowsService`) are modelled as an explicit
environment of outcomes, and `tryEngine` additionally records the trace
of resource acquisition/release events so resource-lifecycle properties
can be stated.
-/

namespace Tailscaled

/-- Resource acquisition / release events produced by one candidate
attempt of `tryEngine`, in program order.
  * `tunNew name`      — `tstun.New(logf, name)` was invoked
  * `tunDiagnose name` — `tstun.Diagnose(logf, name)` ran (failure probe)
  * `tunClose dev`     — `dev.Close()` was invoked
  * `routerNew dev`    — `router.New(logf, dev, linkMon)` was invoked
  * `dnsNew devName`   — `dns.NewOSConfigurator(logf, devName)` was invoked
  * `engineNew`        — `wgengine.NewUserspaceEngine(logf, conf)` was invoked -/
inductive Ev where
  | tunNew (name : String)
  | tunDiagnose (name : String)
  | tunClose (dev : Nat)
  | routerNew (dev : Nat)
  | dnsNew (devName : String)
  | engineNew
  deriving DecidableEq, Repr

/-- The value stored in `wgengine.Config.Router`: either the base router
returned by `router.New`, or that router decorated by
`netstack.NewSubnetRouterWrapper`. -/
inductive RouterVal where
  | base (r : Nat)
  | subnetWrapper (inner : RouterVal)
  deriving DecidableEq, Repr

/-- Shallow embedding of `wgengine.Config` (the fields this layer sets):
listen port, tunnel device, TAP flag, DNS configurator, router. Fields
start unset exactly as the Go zero value leaves them. -/
structure Conf where
  listenPort : Nat
  tun : Option Nat := none
  isTAP : Bool := false
  dns : Option Nat := none
  router : Option RouterVal := none
  deriving DecidableEq, Repr

/-- A successfully constructed engine: the configuration it was built
from plus the opaque identifier the environment assigned to it. -/
structure EngineR where
  conf : Conf
  id : Nat
  deriving DecidableEq, Repr

/-- Outcomes of the external collaborators, one entry per fallible call
made by `tryEngine`.  `tstunNew` yields the device handle and the
OS-assigned device name, as `tstun.New` does. -/
structure Env where
  tstunNew : String → Except String (Nat × String)
  routerNew : Nat → Except String Nat
  dnsNew : String → Except String Nat
  engineNew : Conf → Except String Nat

/-- Go `strings.Split(s, ",")` on the character list: splitting the
empty list yields one empty field, and every comma starts a new field. -/
def splitCommaChars : List Char → List (List Char)
  | [] => [[]]
  | c :: rest =>
    match splitCommaChars rest with
    | [] => [[c]]
    | cur :: parts =>
      if c = ',' then [] :: cur :: parts else (c :: cur) :: parts

/-- Go `strings.Split(s, ",")`. -/
def goSplitComma (s : String) : List String :=
  (splitCommaChars s.toList).map List.asString

/-- Go `strings.HasPrefix(s, pre)`. -/
def goStartsWith (s pre : String) : Bool :=
  s.toList.take pre.toList.length = pre.toList

/-- Shared tail of `tryEngine`: `e, err = wgengine.NewUserspaceEngine(logf, conf)`
followed by the final return. -/
def finishEngine (env : Env) (conf : Conf) (useNetstack : Bool) :
    Except String (EngineR × Bool) :=
  match env.engineNew conf with
  | .error e => .error e
  | .ok id => .ok ({ conf := conf, id := id }, useNetstack)

/-- Shallow embedding of `tryEngine` (tailscaled.go:380-419).  Returns
the Go result `(e, useNetstack, err)` as an `Except`, paired with the
trace of resource events the attempt produced.  Control flow mirrors the
source: the `"userspace-networking"` sentinel skips all kernel-resource
construction; otherwise the tunnel device is opened (with a diagnostic
probe on failure); a `"tap:"`-prefixed name sets `IsTAP` and builds the
engine directly; otherwise router and DNS configurator are constructed —
on router failure the device is closed, on DNS failure the error is
returned as-is — and `wrapNetstack` decorates the router. -/
def tryEngine (env : Env) (wrapNetstack : Bool) (port : Nat) (name : String) :
    Except String (EngineR × Bool) × List Ev :=
  let conf : Conf := { listenPort := port }
  let useNetstack := name = "userspace-networking"
  if useNetstack then
    (finishEngine env conf useNetstack, [.engineNew])
  else
    match env.tstunNew name with
    | .error e => (.error e, [.tunNew name, .tunDiagnose name])
    | .ok (dev, devName) =>
      let conf : Conf := { conf with tun := some dev }
      if goStartsWith name "tap:" then
        let conf : Conf := { conf with isTAP := true }
        (finishEngine env conf false, [.tunNew name, .engineNew])
      else
        match env.routerNew dev with
        | .error e => (.error e, [.tunNew name, .routerNew dev, .tunClose dev])
        | .ok r =>
          match env.dnsNew devName with
          | .error e => (.error e, [.tunNew name, .routerNew dev, .dnsNew devName])
          | .ok d =>
            let router : RouterVal := .base r
            let router := if wrapNetstack then .subnetWrapper router else router
            let conf : Conf := { conf with dns := some d, router := some router }
            (finishEngine env conf useNetstack,
             [.tunNew name, .routerNew dev, .dnsNew devName, .engineNew])

/-- The error returned by `createEngine`: either the fixed error for an
empty `--tun` value, or the `multierror` aggregating one sub-error per
failed candidate in attempt order. -/
inductive CEErr where
  | noTun
  | multi (errs : List String)
  deriving DecidableEq, Repr

/-- The candidate loop of `createEngine` (tailscaled.go:346-355):
sequentially attempt each name, return the first success immediately,
otherwise append the candidate error and continue; when the list is
exhausted return `multierror.New(errs)`. -/
def createEngineLoop (env : Env) (wrapNetstack : Bool) (port : Nat) :
    List String → List String → Except CEErr (EngineR × Bool)
  | [], errs => .error (.multi errs)
  | name :: rest, errs =>
    match (tryEngine env wrapNetstack port name).1 with
    | .ok r => .ok r
    | .error e => createEngineLoop env wrapNetstack port rest (errs ++ [e])

/-- Shallow embedding of `createEngine` (tailscaled.go:341-356): reject
an empty `--tun` value, otherwise split the comma-separated candidate
list and run the attempt loop. -/
def createEngine (env : Env) (wrapNetstack : Bool) (port : Nat) (tunname : String) :
    Except CEErr (EngineR × Bool) :=
  if tunname = "" then .error .noTun
  else createEngineLoop env wrapNetstack port (goSplitComma tunname) []

/-- Go's `strconv.ParseBool`: accepts exactly
1, t, T, TRUE, true, True, 0, f, F, FALSE, false, False;
anything else is a parse error (`none`). -/
def goParseBool (s : String) : Option Bool :=
  if s = "1" ∨ s = "t" ∨ s = "T" ∨ s = "TRUE" ∨ s = "true" ∨ s = "True" then
    some true
  else if s = "0" ∨ s = "f" ∨ s = "F" ∨ s = "FALSE" ∨ s = "false" ∨ s = "False" then
    some false
  else none

/-- Shallow embedding of `shouldWrapNetstack` (tailscaled.go:360-378).
`envWrap` is `os.Getenv("TS_DEBUG_WRAP_NETSTACK")` (empty string means
unset, exactly as in Go); `isSynology` is `distro.Get() == distro.Synology`;
`goos` is `runtime.GOOS`.  `none` models the `log.Fatalf` on an invalid
override value. -/
def shouldWrapNetstack (envWrap : String) (isSynology : Bool) (goos : String) :
    Option Bool :=
  if envWrap ≠ "" then goParseBool envWrap
  else if isSynology then some true
  else if goos = "windows" ∨ goos = "darwin" ∨ goos = "freebsd" then some true
  else some false

/-- The spec's NetstackMode enumeration {None, FullTakeover, SubnetOnly}. -/
inductive NetstackMode where
  | none
  | fullTakeover
  | subnetOnly
  deriving DecidableEq, Repr

/-- The netstack decision made in `run` (tailscaled.go:295-299): the
netstack is constructed iff `useNetstack || wrapNetstack`, and
`onlySubnets := wrapNetstack && !useNetstack` selects subnet-only
interception. -/
def netstackMode (useNetstack wrapNetstack : Bool) : NetstackMode :=
  if useNetstack || wrapNetstack then
    if wrapNetstack && !useNetstack then .subnetOnly else .fullTakeover
  else .none

/-- An engine value as held by a consumer: either the raw engine
returned by `createEngine`, or that value wrapped by
`wgengine.NewWatchdog`. -/
inductive EngineVal where
  | eng (e : EngineR)
  | watchdog (inner : EngineVal)
  deriving DecidableEq, Repr

/-- Errors observable from `run`'s perspective: `context.Canceled` or
any other error (identified by its message). -/
inductive GoErr where
  | canceled
  | other (msg : String)
  deriving DecidableEq, Repr

/-- The value `run` returns, tagged by the branch that produced it. -/
inductive RunRet where
  | ok
  | engineErr (e : CEErr)
  | ipnErr (e : GoErr)
  deriving DecidableEq, Repr

/-- Inputs to `run` that the embedding treats as ambient: the service
dispatch, the cleanup flag, flag values, the collaborator outcomes, and
the result of `ipnserver.Run`.  `windowsServiceErr` is the value
`runWindowsService(pol)` would return. -/
structure RunEnv where
  isWindowsService : Bool
  windowsServiceErr : Option GoErr
  cleanup : Bool
  socksConfigured : Bool
  tunname : String
  port : Nat
  wrapNetstack : Bool
  env : Env
  ipnResult : Option GoErr

/-- What `run` handed to each long-lived consumer of the engine, plus
its return value.  `none` in an engine field means that consumer was
never constructed on this execution path. -/
structure RunTrace where
  socksEngine : Option EngineVal := none
  netstackEngine : Option EngineVal := none
  netstackOnlySubnets : Option Bool := none
  ipnEngine : Option EngineVal := none
  result : RunRet
  deriving DecidableEq, Repr

/-- Shallow embedding of `run` (tailscaled.go:219-339), restricted to
the engine/lifecycle decisions.  Mirrors the source order: the Windows
service branch returns nil after only logging `runWindowsService`'s
error; the cleanup branch returns nil; otherwise `createEngine` runs,
the netstack is constructed if `useNetstack || wrapNetstack` over the
raw engine, the SOCKS5 server (when configured) captures the raw
engine, the engine is then wrapped with `wgengine.NewWatchdog`, the
wrapped value goes to `ipnserver.Run`, and a `context.Canceled` result
is converted to nil. -/
def runGo (renv : RunEnv) : RunTrace :=
  if renv.isWindowsService then
    -- `runWindowsService(pol)`'s error is only logged; run returns nil.
    { result := .ok }
  else if renv.cleanup then
    { result := .ok }
  else
    match createEngine renv.env renv.wrapNetstack renv.port renv.tunname with
    | .error e => { result := .engineErr e }
    | .ok (e0, useNetstack) =>
      let e := EngineVal.eng e0
      let nsBuilt := useNetstack || renv.wrapNetstack
      let onlySubnets := renv.wrapNetstack && !useNetstack
      let nsEngine := if nsBuilt then some e else Option.none
      let nsOnly := if nsBuilt then some onlySubnets else Option.none
      let socksEngine := if renv.socksConfigured then some e else Option.none
      let e := EngineVal.watchdog e
      { socksEngine := socksEngine
        netstackEngine := nsEngine
        netstackOnlySubnets := nsOnly
        ipnEngine := some e
        result :=
          match renv.ipnResult with
          | some err => if err = .canceled then .ok else .ipnErr err
          | Option.none => .ok }

/-- The exit code of `main` (tailscaled.go:157-165): 1 when `run`
returned a non-nil error, 0 otherwise. -/
def mainExitCode (r : RunRet) : Nat :=
  match r with
  | .ok => 0
  | .engineErr _ => 1
  | .ipnErr _ => 1

/-- Decidable equality for `Except`, to evaluate concrete runs. -/
def exceptDecEq {e a : Type} [DecidableEq e] [DecidableEq a] :
    DecidableEq (Except e a)
  | .error x, .error y =>
    if h : x = y then .isTrue (by rw [h])
    else .isFalse (by intro hh; cases hh; exact h rfl)
  | .error _, .ok _ => .isFalse (by intro h; cases h)
  | .ok _, .error _ => .isFalse (by intro h; cases h)
  | .ok x, .ok y =>
    if h : x = y then .isTrue (by rw [h])
    else .isFalse (by intro hh; cases hh; exact h rfl)

instance {e a : Type} [DecidableEq e] [DecidableEq a] :
    DecidableEq (Except e a) := exceptDecEq

/-- Whether a Go `(value, err)` return carries `err == nil`. -/
def isOk {e a : Type} : Except e a → Bool
  | .ok _ => true
  | .error _ => false

/-- The error a candidate attempt produced (empty for a successful
attempt; only used under the hypothesis that the attempt failed). -/
def errOf (env : Env) (w : Bool) (p : Nat) (n : String) : String :=
  match (tryEngine env w p n).1 with
  | .error e => e
  | .ok _ => ""

/-- Whether an engine value is `wgengine.NewWatchdog`-wrapped. -/
def EngineVal.isWrapped : EngineVal → Bool
  | .watchdog _ => true
  | .eng _ => false

/-- The platform-default branch of `shouldWrapNetstack`
(tailscaled.go:368-377): Synology, then GOOS windows/darwin/freebsd. -/
def platformDefaultWrap (isSynology : Bool) (goos : String) : Bool :=
  if isSynology then true
  else if goos = "windows" ∨ goos = "darwin" ∨ goos = "freebsd" then true
  else false

/-- Environment in which every collaborator succeeds. -/
def envAllOk : Env :=
  { tstunNew := fun _ => .ok (1, "ts0")
    routerNew := fun _ => .ok 2
    dnsNew := fun _ => .ok 3
    engineNew := fun _ => .ok 7 }

/-- Environment in which only `dns.NewOSConfigurator` fails. -/
def envDnsFail : Env :=
  { envAllOk with dnsNew := fun _ => .error "dns fail" }

/-- Environment in which only `router.New` fails. -/
def envRouterFail : Env :=
  { envAllOk with routerNew := fun _ => .error "router fail" }

/-- Environment in which every collaborator fails; the tunnel-device
error records the candidate name. -/
def envAllFail : Env :=
  { tstunNew := fun n => .error ("tun " ++ n)
    routerNew := fun _ => .error "router fail"
    dnsNew := fun _ => .error "dns fail"
    engineNew := fun _ => .error "engine fail" }

/-- Environment in which device creation fails for the name "bad" and
succeeds otherwise. -/
def envSel : Env :=
  { envAllOk with
    tstunNew := fun n =>
      if n = "bad" then .error "no such device" else .ok (1, "ts0") }

/-- The engine `envAllOk` produces for a plain kernel candidate with
`wrapNetstack = false` and port 0. -/
def e0c : EngineR :=
  { conf := { listenPort := 0, tun := some 1, isTAP := false,
              dns := some 3, router := some (.base 2) }
    id := 7 }

/-- The engine `envAllOk` produces for a plain kernel candidate with
`wrapNetstack = true` and port 0: the router is decorated. -/
def e0w : EngineR :=
  { conf := { listenPort := 0, tun := some 1, isTAP := false,
              dns := some 3, router := some (.subnetWrapper (.base 2)) }
    id := 7 }

/-- A run with the SOCKS5 listener configured, a plain kernel
candidate, and a cancellation-terminated control-plane server. -/
def renvSocks : RunEnv :=
  { isWindowsService := false
    windowsServiceErr := none
    cleanup := false
    socksConfigured := true
    tunname := "tailscale0"
    port := 0
    wrapNetstack := false
    env := envAllOk
    ipnResult := some .canceled }

/-- Like `renvSocks` but the control-plane server returns a non-nil,
non-cancellation error. -/
def renvIpnErr : RunEnv :=
  { renvSocks with ipnResult := some (.other "ipnserver broke") }

/-- A Windows-service invocation whose service entry point fails. -/
def renvWinSvc : RunEnv :=
  { renvSocks with
    isWindowsService := true
    windowsServiceErr := some (.other "service fail") }

/-- Helper: a successful `finishEngine` hands back exactly the composed
configuration and the `useNetstack` flag it was given. -/
theorem finishEngine_ok (env : Env) (conf : Conf) (u : Bool)
    (eng : EngineR) (b : Bool)
    (h : finishEngine env conf u = .ok (eng, b)) :
    eng.conf = conf ∧ b = u := by
  unfold finishEngine at h
  cases he : env.engineNew conf with
  | error e => rw [he] at h; cases h
  | ok id =>
    rw [he] at h
    simp only [Except.ok.injEq, Prod.mk.injEq] at h
    exact ⟨by rw [← h.1], h.2.symm⟩

/-- Helper: the shape of a userspace-networking attempt. -/
theorem tryEngine_userspace_shape (env : Env) (w : Bool) (p : Nat) :
    tryEngine env w p "userspace-networking" =
      (finishEngine env { listenPort := p } true, [Ev.engineNew]) := by
  simp [tryEngine]

/-- Helper: the shape of a successful kernel-candidate composition up
to the engine call. -/
theorem tryEngine_kernel_shape (env : Env) (w : Bool) (p : Nat) (name : String)
    (hns : name ≠ "userspace-networking")
    (htap : goStartsWith name "tap:" = false)
    (dev : Nat) (devName : String) (r d : Nat)
    (htun : env.tstunNew name = .ok (dev, devName))
    (hr : env.routerNew dev = .ok r) (hd : env.dnsNew devName = .ok d) :
    tryEngine env w p name =
      (finishEngine env
        { listenPort := p, tun := some dev, isTAP := false, dns := some d,
          router := some (if w then .subnetWrapper (.base r) else .base r) }
        false,
       [Ev.tunNew name, Ev.routerNew dev, Ev.dnsNew devName, Ev.engineNew]) := by
  simp [tryEngine, hns, htap, htun, hr, hd]

/-- Helper: when every remaining candidate fails, the loop returns the
accumulated errors followed by one error per remaining candidate, in
order. -/
theorem createEngineLoop_allFail (env : Env) (w : Bool) (p : Nat) :
    ∀ (names acc : List String),
    (∀ n ∈ names, isOk (tryEngine env w p n).1 = false) →
    createEngineLoop env w p names acc =
      .error (.multi (acc ++ names.map (errOf env w p)))
  | [], acc, _ => by simp [createEngineLoop]
  | name :: rest, acc, h => by
    have hname := h name (by simp)
    have hrest : ∀ n ∈ rest, isOk (tryEngine env w p n).1 = false :=
      fun n hn => h n (by simp [hn])
    cases he : (tryEngine env w p name).1 with
    | ok r => rw [he] at hname; simp [isOk] at hname
    | error e =>
      have := createEngineLoop_allFail env w p rest (acc ++ [e]) hrest
      simp [createEngineLoop, he, this, errOf]

/-- Helper: failing candidates are skipped and the first success is
returned, never reaching the candidates after it. -/
theorem createEngineLoop_firstOk (env : Env) (w : Bool) (p : Nat)
    (name : String) (rest : List String) (r : EngineR × Bool)
    (hok : (tryEngine env w p name).1 = .ok r) :
    ∀ (pre acc : List String),
    (∀ n ∈ pre, isOk (tryEngine env w p n).1 = false) →
    createEngineLoop env w p (pre ++ name :: rest) acc = .ok r
  | [], acc, _ => by simp [createEngineLoop, hok]
  | n0 :: pre, acc, h => by
    have hn0 := h n0 (by simp)
    cases he : (tryEngine env w p n0).1 with
    | ok r0 => rw [he] at hn0; simp [isOk] at hn0
    | error e =>
      have := createEngineLoop_firstOk env w p name rest r hok pre (acc ++ [e])
        (fun n hn => h n (by simp [hn]))
      simp [createEngineLoop, he, this]

/-- Helper: a successful attempt reports `useNetstack = true` exactly
when the candidate was the userspace-networking sentinel. -/
theorem tryEngine_ok_flag (env : Env) (w : Bool) (p : Nat) (name : String)
    (eng : EngineR) (b : Bool)
    (h : (tryEngine env w p name).1 = .ok (eng, b)) :
    (b = true ↔ name = "userspace-networking") := by
  by_cases hn : name = "userspace-networking"
  · subst hn
    rw [tryEngine_userspace_shape] at h
    obtain ⟨_, hb⟩ := finishEngine_ok env _ true eng b h
    simp [hb]
  · simp only [hn, iff_false]
    cases ht : env.tstunNew name with
    | error e => simp [tryEngine, hn, ht] at h
    | ok dd =>
      obtain ⟨dev, devName⟩ := dd
      by_cases htap : goStartsWith name "tap:" = true
      · have hshape : tryEngine env w p name =
            (finishEngine env
              { listenPort := p, tun := some dev, isTAP := true } false,
             [Ev.tunNew name, Ev.engineNew]) := by
          simp [tryEngine, hn, htap, ht]
        rw [hshape] at h
        obtain ⟨_, hb⟩ := finishEngine_ok env _ false eng b h
        simp [hb]
      · rw [Bool.not_eq_true] at htap
        cases hrr : env.routerNew dev with
        | error e => simp [tryEngine, hn, htap, ht, hrr] at h
        | ok r =>
          cases hdd : env.dnsNew devName with
          | error e => simp [tryEngine, hn, htap, ht, hrr, hdd] at h
          | ok d =>
            rw [tryEngine_kernel_shape env w p name hn htap dev devName r d
                  ht hrr hdd] at h
            obtain ⟨_, hb⟩ := finishEngine_ok env _ false eng b h
            simp [hb]

/-- Claim C1, counterexample: with a kernel candidate whose
DNS-configurator construction fails, the attempt fails after acquiring
the tunnel device and the router, yet the tunnel device is never closed
— refuting "when DNS-configurator construction fails the router and
tunnel device acquired in that attempt are released". -/
theorem C1_counterexample :
    isOk (tryEngine envDnsFail false 0 "tailscale0").1 = false ∧
    Ev.tunNew "tailscale0" ∈ (tryEngine envDnsFail false 0 "tailscale0").2 ∧
    Ev.routerNew 1 ∈ (tryEngine envDnsFail false 0 "tailscale0").2 ∧
    Ev.tunClose 1 ∉ (tryEngine envDnsFail false 0 "tailscale0").2 := by
  decide

/-- Claim C1, amended: in a kernel IP-tunnel candidate attempt, when
router construction fails the tunnel device is closed before moving on;
but when DNS-configurator construction fails the error is propagated
without releasing the router or the tunnel device acquired in that
attempt. -/
theorem C1_cleanup_amended (env : Env) (w : Bool) (p : Nat) (name : String)
    (hns : name ≠ "userspace-networking")
    (htap : goStartsWith name "tap:" = false)
    (dev : Nat) (devName : String)
    (htun : env.tstunNew name = .ok (dev, devName)) :
    (∀ e, env.routerNew dev = .error e →
        tryEngine env w p name =
          (.error e, [.tunNew name, .routerNew dev, .tunClose dev])) ∧
    (∀ r e, env.routerNew dev = .ok r → env.dnsNew devName = .error e →
        tryEngine env w p name =
          (.error e, [.tunNew name, .routerNew dev, .dnsNew devName])) := by
  constructor
  · intro e he
    simp [tryEngine, hns, htap, htun, he]
  · intro r e hr he
    simp [tryEngine, hns, htap, htun, hr, he]

/-- Claim C1, witness: the amended theorem evaluated on a concrete
environment whose DNS-configurator construction fails. -/
theorem C1_cleanup_amended_witness :
    tryEngine envDnsFail false 0 "tailscale0" =
      (.error "dns fail",
       [.tunNew "tailscale0", .routerNew 1, .dnsNew "ts0"]) :=
  (C1_cleanup_amended envDnsFail false 0 "tailscale0" (by decide) (by decide)
      1 "ts0" rfl).2 2 "dns fail" rfl rfl

/-- Claim C2, counterexample: with the SOCKS5 listener configured, the
engine value handed to the SOCKS5 server is the raw engine, not the
Watchdog-wrapped one — refuting "the ProxyListener's serve loop
operates on the Watchdog-wrapped value". -/
theorem C2_counterexample :
    ((runGo renvSocks).socksEngine.map EngineVal.isWrapped) = some false ∧
    (runGo renvSocks).socksEngine = some (.eng e0c) := by
  decide

/-- Claim C2, amended: the control-plane shutdown path receives the
Watchdog-wrapped engine, but wrapping is not the last composition step
preceding every holder: both the netstack bridge and the SOCKS5 server
(when configured) capture the raw, unwrapped engine before the Watchdog
is applied. -/
theorem C2_watchdog_amended (renv : RunEnv)
    (hsvc : renv.isWindowsService = false) (hclean : renv.cleanup = false)
    (e0 : EngineR) (b : Bool)
    (hce : createEngine renv.env renv.wrapNetstack renv.port renv.tunname =
           .ok (e0, b)) :
    (runGo renv).ipnEngine = some (.watchdog (.eng e0)) ∧
    (renv.socksConfigured = true → (runGo renv).socksEngine = some (.eng e0)) ∧
    ((b || renv.wrapNetstack) = true →
        (runGo renv).netstackEngine = some (.eng e0)) := by
  simp [runGo, hsvc, hclean, hce]
  rintro (h | h) hb
  · simp [hb] at h
  · exact h

/-- Claim C2, witness: the amended theorem evaluated on a concrete run
with the SOCKS5 listener configured. -/
theorem C2_watchdog_amended_witness :
    (runGo renvSocks).ipnEngine = some (.watchdog (.eng e0c)) ∧
    (renvSocks.socksConfigured = true →
        (runGo renvSocks).socksEngine = some (.eng e0c)) ∧
    ((false || renvSocks.wrapNetstack) = true →
        (runGo renvSocks).netstackEngine = some (.eng e0c)) :=
  C2_watchdog_amended renvSocks rfl rfl e0c false (by decide)

/-- Claim C3: when every candidate in the transport list fails,
`createEngine` returns a single aggregate error containing exactly one
sub-error per candidate, in the original candidate order. -/
theorem C3_aggregate_error (env : Env) (w : Bool) (p : Nat) (tunname : String)
    (hne : tunname ≠ "")
    (hfail : ∀ n ∈ goSplitComma tunname, isOk (tryEngine env w p n).1 = false) :
    createEngine env w p tunname =
      .error (.multi ((goSplitComma tunname).map (errOf env w p))) := by
  have h := createEngineLoop_allFail env w p (goSplitComma tunname) [] hfail
  simpa [createEngine, hne] using h

/-- Claim C3, witness: two failing candidates yield exactly their two
errors in order. -/
theorem C3_aggregate_error_witness :
    createEngine envAllFail false 0 "a,b" =
      .error (.multi ["tun a", "tun b"]) := by
  have h := C3_aggregate_error envAllFail false 0 "a,b" (by decide) (by decide)
  simpa using h

/-- Claim C4: after the control-plane server returns, a
cancellation-caused return yields exit code 0, while any other non-nil
error is surfaced as `run`'s result and yields exit code 1. -/
theorem C4_exit_codes (renv : RunEnv)
    (hsvc : renv.isWindowsService = false) (hclean : renv.cleanup = false)
    (r : EngineR × Bool)
    (hce : createEngine renv.env renv.wrapNetstack renv.port renv.tunname =
           .ok r) :
    (renv.ipnResult = some .canceled →
        (runGo renv).result = .ok ∧ mainExitCode (runGo renv).result = 0) ∧
    (∀ e, renv.ipnResult = some e → e ≠ .canceled →
        (runGo renv).result = .ipnErr e ∧
        mainExitCode (runGo renv).result = 1) := by
  obtain ⟨e0, b⟩ := r
  constructor
  · intro h
    simp [runGo, hsvc, hclean, hce, h, mainExitCode]
  · intro e he hne
    simp [runGo, hsvc, hclean, hce, he, hne, mainExitCode]

/-- Claim C4, witness: a cancelled run exits 0, a run whose
control-plane server fails exits 1. -/
theorem C4_exit_codes_witness :
    mainExitCode (runGo renvSocks).result = 0 ∧
    mainExitCode (runGo renvIpnErr).result = 1 :=
  ⟨((C4_exit_codes renvSocks rfl rfl (e0c, false) (by decide)).1 rfl).2,
   ((C4_exit_codes renvIpnErr rfl rfl (e0c, false) (by decide)).2
      (.other "ipnserver broke") rfl (by decide)).2⟩

/-- Claim C5: if the candidate list splits as failing candidates
followed by a succeeding one, `createEngine` returns that candidate's
engine, regardless of the candidates after it. -/
theorem C5_first_success (env : Env) (w : Bool) (p : Nat) (tunname : String)
    (pre : List String) (name : String) (rest : List String)
    (r : EngineR × Bool)
    (hne : tunname ≠ "")
    (hsplit : goSplitComma tunname = pre ++ name :: rest)
    (hfail : ∀ n ∈ pre, isOk (tryEngine env w p n).1 = false)
    (hok : (tryEngine env w p name).1 = .ok r) :
    createEngine env w p tunname = .ok r := by
  have h := createEngineLoop_firstOk env w p name rest r hok pre [] hfail
  simpa [createEngine, hne, hsplit] using h

/-- Claim C5, witness: with the first candidate failing and the second
succeeding, the second candidate's engine is returned. -/
theorem C5_first_success_witness :
    createEngine envSel false 0 "bad,tailscale0" = .ok (e0c, false) :=
  C5_first_success envSel false 0 "bad,tailscale0" ["bad"] "tailscale0" []
    (e0c, false) (by decide) (by decide) (by decide) (by decide)

/-- Claim C6: for the candidate "userspace-networking", composition
produces only the engine-construction event — no tunnel device, router
or DNS configurator — and on success the result is flagged
`useNetstack = true` with all kernel-resource fields unset. -/
theorem C6_userspace_no_kernel (env : Env) (w : Bool) (p : Nat) :
    (tryEngine env w p "userspace-networking").2 = [Ev.engineNew] ∧
    ∀ eng b, (tryEngine env w p "userspace-networking").1 = .ok (eng, b) →
      b = true ∧ eng.conf.tun = none ∧ eng.conf.router = none ∧
      eng.conf.dns = none ∧ eng.conf.isTAP = false := by
  rw [tryEngine_userspace_shape]
  refine ⟨rfl, ?_⟩
  intro eng b h
  obtain ⟨hconf, hb⟩ := finishEngine_ok env _ true eng b h
  subst hb
  rw [hconf]
  exact ⟨rfl, rfl, rfl, rfl, rfl⟩

/-- Claim C6, witness: the theorem evaluated on a successful userspace
attempt. -/
theorem C6_userspace_no_kernel_witness :
    (tryEngine envAllOk false 0 "userspace-networking").2 = [Ev.engineNew] ∧
    (true = true ∧
     ({ conf := { listenPort := 0 }, id := 7 } : EngineR).conf.tun = none ∧
     ({ conf := { listenPort := 0 }, id := 7 } : EngineR).conf.router = none ∧
     ({ conf := { listenPort := 0 }, id := 7 } : EngineR).conf.dns = none ∧
     ({ conf := { listenPort := 0 }, id := 7 } : EngineR).conf.isTAP = false) :=
  ⟨(C6_userspace_no_kernel envAllOk false 0).1,
   (C6_userspace_no_kernel envAllOk false 0).2
     { conf := { listenPort := 0 }, id := 7 } true (by decide)⟩

/-- Claim C7: for a "tap:"-prefixed candidate, composition only ever
opens the tunnel device (and builds the engine) — it never constructs a
router or DNS configurator; on device-open failure the diagnostic probe
runs and the error is propagated unchanged; on success the
configuration is TAP-flagged with router and DNS unset. -/
theorem C7_tap_no_router_dns (env : Env) (w : Bool) (p : Nat) (name : String)
    (htap : goStartsWith name "tap:" = true) :
    (∀ ev ∈ (tryEngine env w p name).2,
        ev = Ev.tunNew name ∨ ev = Ev.tunDiagnose name ∨ ev = Ev.engineNew) ∧
    (∀ e, env.tstunNew name = .error e →
        tryEngine env w p name = (.error e, [.tunNew name, .tunDiagnose name])) ∧
    (∀ dev devName, env.tstunNew name = .ok (dev, devName) →
        (tryEngine env w p name).2 = [.tunNew name, .engineNew] ∧
        ∀ eng b, (tryEngine env w p name).1 = .ok (eng, b) →
          eng.conf.isTAP = true ∧ eng.conf.router = none ∧
          eng.conf.dns = none ∧ b = false) := by
  have hns : name ≠ "userspace-networking" := by
    intro h; subst h; exact absurd htap (by decide)
  refine ⟨?_, ?_, ?_⟩
  · intro ev hev
    cases he : env.tstunNew name with
    | error e =>
      simp [tryEngine, hns, htap, he] at hev
      rcases hev with h | h <;> simp [h]
    | ok dd =>
      obtain ⟨dev, devName⟩ := dd
      simp [tryEngine, hns, htap, he] at hev
      rcases hev with h | h <;> simp [h]
  · intro e he
    simp [tryEngine, hns, htap, he]
  · intro dev devName he
    have hshape : tryEngine env w p name =
        (finishEngine env { listenPort := p, tun := some dev, isTAP := true }
           false,
         [Ev.tunNew name, Ev.engineNew]) := by
      simp [tryEngine, hns, htap, he]
    rw [hshape]
    refine ⟨rfl, ?_⟩
    intro eng b h
    obtain ⟨hconf, hb⟩ := finishEngine_ok env _ false eng b h
    subst hb
    rw [hconf]
    exact ⟨rfl, rfl, rfl, rfl⟩

/-- Claim C7, witness: device-open failure propagates the error after
the diagnostic probe; a successful TAP attempt produces only the device
and engine events. -/
theorem C7_tap_no_router_dns_witness :
    tryEngine envAllFail false 0 "tap:tap0" =
      (.error "tun tap:tap0", [.tunNew "tap:tap0", .tunDiagnose "tap:tap0"]) ∧
    (tryEngine envAllOk false 0 "tap:tap0").2 = [.tunNew "tap:tap0", .engineNew] :=
  ⟨(C7_tap_no_router_dns envAllFail false 0 "tap:tap0" (by decide)).2.1
      "tun tap:tap0" (by decide),
   ((C7_tap_no_router_dns envAllOk false 0 "tap:tap0" (by decide)).2.2
      1 "ts0" rfl).1⟩

/-- Claim C8: the netstack decision — an explicit override value wins
(independently of platform), otherwise the platform default applies; a
userspace-networking transport runs the netstack in FullTakeover,
wrapping on a non-userspace transport yields SubnetOnly; the netstack
is constructed iff the transport was userspace-networking or wrapping
resolved on; and a successful attempt reports `useNetstack = true`
exactly for the "userspace-networking" candidate. -/
theorem C8_netstack_resolution :
    (∀ s syn syn2 goos goos2 v, s ≠ "" → goParseBool s = some v →
        shouldWrapNetstack s syn goos = some v ∧
        shouldWrapNetstack s syn goos = shouldWrapNetstack s syn2 goos2) ∧
    (∀ syn goos, shouldWrapNetstack "" syn goos =
        some (platformDefaultWrap syn goos)) ∧
    (∀ w, netstackMode true w = .fullTakeover) ∧
    (netstackMode false true = .subnetOnly) ∧
    (∀ u w, (netstackMode u w ≠ .none) ↔ (u || w) = true) ∧
    (∀ env w p name eng b, (tryEngine env w p name).1 = .ok (eng, b) →
        (b = true ↔ name = "userspace-networking")) := by
  refine ⟨?_, ?_, ?_, ?_, ?_, ?_⟩
  · intro s syn syn2 goos goos2 v hs hv
    constructor <;> simp [shouldWrapNetstack, hs, hv]
  · intro syn goos
    by_cases hg : goos = "windows" ∨ goos = "darwin" ∨ goos = "freebsd" <;>
      cases syn <;> simp [shouldWrapNetstack, platformDefaultWrap, hg]
  · intro w; cases w <;> rfl
  · rfl
  · intro u w; cases u <;> cases w <;> decide
  · exact fun env w p name eng b h => tryEngine_ok_flag env w p name eng b h

/-- Claim C8, witness: the override "0" forces the netstack off even on
a platform whose default is on, and a successful userspace-networking
attempt reports the flag. -/
theorem C8_netstack_resolution_witness :
    (shouldWrapNetstack "0" true "windows" = some false ∧
     shouldWrapNetstack "0" true "windows" =
       shouldWrapNetstack "0" false "linux") ∧
    (true = true ↔ "userspace-networking" = "userspace-networking") :=
  ⟨C8_netstack_resolution.1 "0" true false "windows" "linux" false
      (by decide) rfl,
   C8_netstack_resolution.2.2.2.2.2 envAllOk false 0 "userspace-networking"
      { conf := { listenPort := 0 }, id := 7 } true (by decide)⟩

/-- Claim C9: with subnet-only wrapping in effect (`wrapNetstack =
true`) on a kernel-device candidate, the Router field of the resulting
engine configuration is the subnet-only decorator around the base
router, not the base router itself. -/
theorem C9_subnet_router_wrapped (env : Env) (p : Nat) (name : String)
    (hns : name ≠ "userspace-networking")
    (htap : goStartsWith name "tap:" = false)
    (dev : Nat) (devName : String) (r d : Nat)
    (htun : env.tstunNew name = .ok (dev, devName))
    (hr : env.routerNew dev = .ok r) (hd : env.dnsNew devName = .ok d) :
    ∀ eng b, (tryEngine env true p name).1 = .ok (eng, b) →
      eng.conf.router = some (.subnetWrapper (.base r)) := by
  intro eng b h
  rw [tryEngine_kernel_shape env true p name hns htap dev devName r d
        htun hr hd] at h
  obtain ⟨hconf, _⟩ := finishEngine_ok env _ false eng b h
  simp [hconf]

/-- Claim C9, witness: the wrapped-router engine produced by a concrete
successful kernel attempt with wrapping on. -/
theorem C9_subnet_router_wrapped_witness :
    e0w.conf.router = some (.subnetWrapper (.base 2)) :=
  C9_subnet_router_wrapped envAllOk 0 "tailscale0" (by decide) (by decide)
    1 "ts0" 2 3 rfl rfl rfl e0w false (by decide)

/-- Claim C10: a Windows-service invocation makes `run` return nil
regardless of the service entry point's error (which is only logged),
so the process exits with code 0. -/
theorem C10_windows_service_exit (renv : RunEnv)
    (h : renv.isWindowsService = true) :
    (runGo renv).result = .ok ∧ mainExitCode (runGo renv).result = 0 := by
  simp [runGo, h, mainExitCode]

/-- Claim C10, witness: a Windows-service run whose service entry point
failed still yields result nil and exit code 0. -/
theorem C10_windows_service_exit_witness :
    (runGo renvWinSvc).result = .ok ∧
    mainExitCode (runGo renvWinSvc).result = 0 :=
  C10_windows_service_exit renvWinSvc rfl

end Tailscaled
